import Mathlib

/-!
Shallow embedding of the TODO task service in `app/main.py`:
a file-backed task store with sequential ids, a partial-update (patch)
operation, and a best-effort Redis cache whose failures are swallowed.

Pydantic models become Lean structures; raw JSON records (where fields may
be missing, null, or constraint-violating) become a record of nested
options; the data file becomes an inductive describing its parsed shape;
the Redis backend becomes an oracle recording the outcome of each call.
-/

namespace App

/-- Full task record (`Tarefa`): id plus the base fields of `TarefaBase`
(`titulo` 1..200 chars, optional `descricao` up to 2000 chars, `concluida`
defaulting to false). -/
structure Tarefa where
  id : Int
  titulo : String
  descricao : Option String
  concluida : Bool
deriving Repr, DecidableEq

/-- Creation payload (`TarefaCriar`): same fields as `TarefaBase`. -/
structure TarefaCriar where
  titulo : String
  descricao : Option String
  concluida : Bool
deriving Repr, DecidableEq

/-- Patch payload (`TarefaAtualizar`). Pydantic distinguishes a field that
was not supplied (outer `none`, excluded by `exclude_unset`) from one
explicitly set to null (`some none`) and one set to a value
(`some (some v)`). -/
structure TarefaAtualizar where
  titulo : Option (Option String)
  descricao : Option (Option String)
  concluida : Option (Option Bool)
deriving Repr, DecidableEq

/-- A raw task record as found in parsed JSON or in `model_dump` output:
each field may be missing (`none`), null (`some none` for the nullable
ones), or present. -/
structure TarefaBruta where
  id : Option Int
  titulo : Option (Option String)
  descricao : Option (Option String)
  concluida : Option (Option Bool)
deriving Repr, DecidableEq

/-- Error taxonomy of the service, following the spec names: `notFound` is
the 404 raised by `editar_tarefa`; `validationError` is a pydantic
`ValidationError`; `storageCorrupt` is a failure to parse the data file. -/
inductive Erro where
  | notFound
  | validationError
  | storageCorrupt
deriving Repr, DecidableEq

/-- Parsed shape of the backing JSON file (`ARQUIVO_DADOS`): absent,
whitespace only, structurally invalid content (not a JSON array of
objects), or an array of raw records. -/
inductive ConteudoArquivo where
  | ausente
  | branco
  | invalido
  | dados (bruto : List TarefaBruta)
deriving Repr, DecidableEq

/-- `titulo` validation of `Tarefa`: a required string of 1..200 chars;
missing or null is rejected. -/
def validar_titulo : Option (Option String) → Option String
  | some (some s) => if 1 ≤ s.length ∧ s.length ≤ 200 then some s else none
  | _ => none

/-- `descricao` validation of `Tarefa`: optional, at most 2000 chars;
missing and null both yield `none`. -/
def validar_descricao : Option (Option String) → Option (Option String)
  | none => some none
  | some none => some none
  | some (some d) => if d.length ≤ 2000 then some (some d) else none

/-- `concluida` validation of `Tarefa`: a bool defaulting to false when the
field is missing; an explicit null is rejected (pydantic does not coerce
`None` to `bool`). -/
def validar_concluida : Option (Option Bool) → Option Bool
  | none => some false
  | some none => none
  | some (some b) => some b

/-- `Tarefa(**bruto)`: pydantic construction of a full task from a raw
record; `none` models a raised `ValidationError`. -/
def parseTarefa (r : TarefaBruta) : Option Tarefa :=
  match r.id, validar_titulo r.titulo, validar_descricao r.descricao,
      validar_concluida r.concluida with
  | some i, some s, some d, some c => some ⟨i, s, d, c⟩
  | _, _, _, _ => none

/-- `[Tarefa(**t) for t in bruto]`: parse every record; any failure aborts
the whole list. -/
def parse_lista : List TarefaBruta → Option (List Tarefa)
  | [] => some []
  | r :: resto =>
    match parseTarefa r, parse_lista resto with
    | some t, some ts => some (t :: ts)
    | _, _ => none

/-- `t.model_dump()`: serialize a task to a raw record; every key is
emitted, with `descricao = none` emitted as null. -/
def model_dump (t : Tarefa) : TarefaBruta :=
  ⟨some t.id, some (some t.titulo), some t.descricao, some (some t.concluida)⟩

/-- The field constraints a `Tarefa` satisfies by construction in pydantic. -/
def tarefa_valida (t : Tarefa) : Bool :=
  decide (1 ≤ t.titulo.length) && decide (t.titulo.length ≤ 200) &&
    (match t.descricao with
     | none => true
     | some d => decide (d.length ≤ 2000))

/-- `_ler_todas_as_tarefas`: read the file; absent or whitespace-only gives
the empty list; anything else must parse as a list of valid task records,
else the read fails (`StorageCorrupt` class). The `asyncio.Lock` around the
file access is a concurrency construct outside this sequential embedding. -/
def _ler_todas_as_tarefas : ConteudoArquivo → Except Erro (List Tarefa)
  | .ausente => .ok []
  | .branco => .ok []
  | .invalido => .error .storageCorrupt
  | .dados bruto =>
    match parse_lista bruto with
    | some ts => .ok ts
    | none => .error .storageCorrupt

/-- `_gravar_todas_as_tarefas`: overwrite the file with the serialized
list, in order. -/
def _gravar_todas_as_tarefas (tarefas : List Tarefa) : ConteudoArquivo :=
  .dados (tarefas.map model_dump)

/-- `_proximo_id`: `max((t.id for t in tarefas), default=0) + 1`. -/
def _proximo_id (tarefas : List Tarefa) : Int :=
  (match tarefas.map (fun t => t.id) with
   | [] => 0
   | x :: xs => xs.foldl max x) + 1

/-- `t.model_copy(update=payload.model_dump(exclude_unset=True))` followed
by `.model_dump()`: fields the patch supplied (even as null) overwrite the
prior value; unsupplied fields keep it; no validation happens here. -/
def aplicar_patch (t : Tarefa) (p : TarefaAtualizar) : TarefaBruta :=
  ⟨some t.id,
   some (match p.titulo with | none => some t.titulo | some v => v),
   some (match p.descricao with | none => t.descricao | some v => v),
   some (match p.concluida with | none => some t.concluida | some v => v)⟩

/-- The `for idx, t in enumerate(tarefas)` loop of `editar_tarefa`: find
the first task with the given id, rebuild it from the patched copy through
`Tarefa(**...)` validation, and replace it in place; no match is a 404. -/
def editar_lista (task_id : Int) (p : TarefaAtualizar) :
    List Tarefa → Except Erro (Tarefa × List Tarefa)
  | [] => .error .notFound
  | t :: resto =>
    if t.id = task_id then
      match parseTarefa (aplicar_patch t p) with
      | some novo => .ok (novo, novo :: resto)
      | none => .error .validationError
    else
      match editar_lista task_id p resto with
      | .ok (novo, resto2) => .ok (novo, t :: resto2)
      | .error e => .error e

/-- Outcome of `r.get("tasks:all")`: the call raises (`falha`), returns a
falsy value (`vazio`: `None` or empty string), returns a JSON array
payload (`valor`), or returns content that fails `json.loads` or task
validation (`corrompido`). -/
inductive RespostaGet where
  | falha
  | vazio
  | valor (bruto : List TarefaBruta)
  | corrompido
deriving Repr, DecidableEq

/-- Oracle for the Redis backend: whether `from_url` plus `ping` succeeds,
what `get` on the task key yields, and whether `set` and `delete` raise.
All of these are observed through try/except in the service. -/
structure Redis where
  ping : Bool
  resposta_get : RespostaGet
  set_falha : Bool
  delete_falha : Bool
deriving Repr, DecidableEq

/-- A backend that is down throughout: connecting fails and every
operation raises. -/
def redis_indisponivel : Redis :=
  ⟨false, .falha, true, true⟩

/-- A healthy backend with an empty cache. -/
def redis_disponivel : Redis :=
  ⟨true, .vazio, false, false⟩

/-- Process state: the data file plus the process-wide `cliente_redis`
global (`some ()` once a connection has been established and cached). -/
structure Estado where
  arquivo : ConteudoArquivo
  cliente_redis : Option Unit
deriving Repr, DecidableEq

/-- `obter_redis`: return the cached client if set; otherwise try
`from_url` + `ping`, caching the client on success and leaving the global
unset (`None`) on failure. -/
def obter_redis (r : Redis) (s : Estado) : Option Unit × Estado :=
  match s.cliente_redis with
  | some h => (some h, s)
  | none =>
    if r.ping then (some (), { arquivo := s.arquivo, cliente_redis := some () })
    else (none, s)

/-- `invalidar_cache_tarefas`: fetch a client and best-effort delete the
cache key; a raised `delete` is swallowed, so only the `obter_redis` state
effect is observable. -/
def invalidar_cache_tarefas (r : Redis) (s : Estado) : Estado :=
  (obter_redis r s).2

/-- `saude` (GET /health): reports `bool(r)`, whether a Redis client is
available. -/
def saude (r : Redis) (s : Estado) : Bool × Estado :=
  match obter_redis r s with
  | (cli, s1) => (cli.isSome, s1)

/-- `listar_tarefas` (GET /tasks): try the cache inside try/except — a
raised `get`, a falsy value, corrupt content, or records failing task
validation all fall through to the store; then best-effort populate the
cache (`set` failures swallowed) and return the stored list. -/
def listar_tarefas (r : Redis) (s : Estado) :
    Except Erro (List Tarefa) × Estado :=
  match obter_redis r s with
  | (some _, s1) =>
    match r.resposta_get with
    | .valor bruto =>
      match parse_lista bruto with
      | some ts => (.ok ts, s1)
      | none => (_ler_todas_as_tarefas s1.arquivo, s1)
    | _ => (_ler_todas_as_tarefas s1.arquivo, s1)
  | (none, s1) => (_ler_todas_as_tarefas s1.arquivo, s1)

/-- `adicionar_tarefa` (POST /tasks): load, assign `_proximo_id`, append,
save the full list, invalidate the cache, return the new task. -/
def adicionar_tarefa (r : Redis) (payload : TarefaCriar) (s : Estado) :
    Except Erro Tarefa × Estado :=
  match _ler_todas_as_tarefas s.arquivo with
  | .error e => (.error e, s)
  | .ok tarefas =>
    let tarefa : Tarefa :=
      ⟨_proximo_id tarefas, payload.titulo, payload.descricao, payload.concluida⟩
    let s1 : Estado :=
      ⟨_gravar_todas_as_tarefas (tarefas ++ [tarefa]), s.cliente_redis⟩
    (.ok tarefa, invalidar_cache_tarefas r s1)

/-- `editar_tarefa` (PUT /tasks/task_id): load, patch the first task with
the given id, save, invalidate the cache and return it; a missing id is a
404 and a validation failure aborts before the save, leaving the file
untouched. -/
def editar_tarefa (r : Redis) (task_id : Int) (p : TarefaAtualizar)
    (s : Estado) : Except Erro Tarefa × Estado :=
  match _ler_todas_as_tarefas s.arquivo with
  | .error e => (.error e, s)
  | .ok tarefas =>
    match editar_lista task_id p tarefas with
    | .error e => (.error e, s)
    | .ok (novo, tarefas2) =>
      let s1 : Estado := ⟨_gravar_todas_as_tarefas tarefas2, s.cliente_redis⟩
      (.ok novo, invalidar_cache_tarefas r s1)

/-- The list operation with the cache stripped out: just the store read.
Comparator for the claim that cache failures never change results. -/
def listar_sem_cache (s : Estado) : Except Erro (List Tarefa) × Estado :=
  (_ler_todas_as_tarefas s.arquivo, s)

/-- The create operation with the cache stripped out. -/
def adicionar_sem_cache (payload : TarefaCriar) (s : Estado) :
    Except Erro Tarefa × Estado :=
  match _ler_todas_as_tarefas s.arquivo with
  | .error e => (.error e, s)
  | .ok tarefas =>
    let tarefa : Tarefa :=
      ⟨_proximo_id tarefas, payload.titulo, payload.descricao, payload.concluida⟩
    (.ok tarefa, ⟨_gravar_todas_as_tarefas (tarefas ++ [tarefa]), s.cliente_redis⟩)

/-- The update operation with the cache stripped out. -/
def editar_sem_cache (task_id : Int) (p : TarefaAtualizar) (s : Estado) :
    Except Erro Tarefa × Estado :=
  match _ler_todas_as_tarefas s.arquivo with
  | .error e => (.error e, s)
  | .ok tarefas =>
    match editar_lista task_id p tarefas with
    | .error e => (.error e, s)
    | .ok (novo, tarefas2) =>
      (.ok novo, ⟨_gravar_todas_as_tarefas tarefas2, s.cliente_redis⟩)

/-- Fresh process state over an absent data file. -/
def estado_inicial : Estado :=
  ⟨.ausente, none⟩

/-! ### Helper lemmas -/

theorem foldl_max_init (xs : List Int) : ∀ x : Int, x ≤ xs.foldl max x := by
  induction xs with
  | nil => intro x; exact le_refl x
  | cons z zs ih => intro x; exact le_trans (le_max_left x z) (ih (max x z))

theorem foldl_max_mem (xs : List Int) :
    ∀ x y : Int, y ∈ xs → y ≤ xs.foldl max x := by
  induction xs with
  | nil => intro x y hy; cases hy
  | cons z zs ih =>
    intro x y hy
    cases hy with
    | head => exact le_trans (le_max_right x z) (foldl_max_init zs (max x z))
    | tail _ hm => exact ih (max x z) y hm

/-- Every id in the list is strictly below `_proximo_id`. -/
theorem id_lt_proximo_id (tarefas : List Tarefa) :
    ∀ u ∈ tarefas, u.id < _proximo_id tarefas := by
  intro u hu
  have hmem : u.id ∈ tarefas.map (fun t => t.id) :=
    List.mem_map_of_mem (fun t => t.id) hu
  unfold _proximo_id
  cases hm : tarefas.map (fun t => t.id) with
  | nil => rw [hm] at hmem; cases hmem
  | cons x xs =>
    rw [hm] at hmem
    have hle : u.id ≤ xs.foldl max x := by
      cases hmem with
      | head => exact foldl_max_init xs u.id
      | tail _ h2 => exact foldl_max_mem xs x u.id h2
    show u.id < xs.foldl max x + 1
    omega

/-- Parsing back a serialized valid task gives back the task. -/
theorem parseTarefa_model_dump (t : Tarefa) (h : tarefa_valida t = true) :
    parseTarefa (model_dump t) = some t := by
  obtain ⟨i, s, d, c⟩ := t
  unfold tarefa_valida at h
  simp only [Bool.and_eq_true, decide_eq_true_eq] at h
  obtain ⟨⟨h1, h2⟩, h3⟩ := h
  cases d with
  | none =>
    simp [parseTarefa, model_dump, validar_titulo, validar_descricao,
      validar_concluida, h1, h2]
  | some dd =>
    simp only [decide_eq_true_eq] at h3
    simp [parseTarefa, model_dump, validar_titulo, validar_descricao,
      validar_concluida, h1, h2, h3]

/-- Serializing a list of valid tasks and parsing it back is the identity. -/
theorem parse_lista_map_dump (ts : List Tarefa)
    (h : ∀ t ∈ ts, tarefa_valida t = true) :
    parse_lista (ts.map model_dump) = some ts := by
  induction ts with
  | nil => rfl
  | cons t resto ih =>
    have ht := parseTarefa_model_dump t (h t (List.mem_cons_self t resto))
    have hr := ih (fun u hu => h u (List.mem_cons_of_mem t hu))
    simp [parse_lista, ht, hr]

/-- One unparsable record makes the whole list unparsable. -/
theorem parse_lista_falha (l : List TarefaBruta) (r : TarefaBruta)
    (hr : r ∈ l) (hp : parseTarefa r = none) : parse_lista l = none := by
  induction l with
  | nil => cases hr
  | cons a resto ih =>
    cases hr with
    | head => unfold parse_lista; rw [hp]
    | tail _ hm =>
      unfold parse_lista
      rw [ih hm]
      cases h2 : parseTarefa a <;> rfl

/-- A successfully parsed task carries exactly the raw record's id. -/
theorem parseTarefa_id (r : TarefaBruta) (t : Tarefa)
    (h : parseTarefa r = some t) : r.id = some t.id := by
  unfold parseTarefa at h
  cases hid : r.id with
  | none => rw [hid] at h; cases h
  | some i =>
    rw [hid] at h
    cases ht : validar_titulo r.titulo with
    | none => rw [ht] at h; cases h
    | some s =>
      rw [ht] at h
      cases hd : validar_descricao r.descricao with
      | none => rw [hd] at h; cases h
      | some d =>
        rw [hd] at h
        cases hc : validar_concluida r.concluida with
        | none => rw [hc] at h; cases h
        | some c =>
          rw [hc] at h
          cases h
          rfl

/-- When no task matches, the edit loop falls through to the 404. -/
theorem editar_lista_ausente (task_id : Int) (p : TarefaAtualizar)
    (l : List Tarefa) (h : ∀ u ∈ l, u.id ≠ task_id) :
    editar_lista task_id p l = .error .notFound := by
  induction l with
  | nil => rfl
  | cons t resto ih =>
    have ht : t.id ≠ task_id := h t (List.mem_cons_self t resto)
    have hr := ih (fun u hu => h u (List.mem_cons_of_mem t hu))
    simp [editar_lista, ht, hr]

/-- The edit loop hits the first match and, when re-validation succeeds,
replaces exactly that element. -/
theorem editar_lista_encontra_ok (task_id : Int) (p : TarefaAtualizar)
    (l1 l2 : List Tarefa) (t novo : Tarefa)
    (h1 : ∀ u ∈ l1, u.id ≠ task_id) (h2 : t.id = task_id)
    (hp : parseTarefa (aplicar_patch t p) = some novo) :
    editar_lista task_id p (l1 ++ t :: l2) = .ok (novo, l1 ++ novo :: l2) := by
  induction l1 with
  | nil => simp [editar_lista, h2, hp]
  | cons u resto ih =>
    have hu : u.id ≠ task_id := h1 u (List.mem_cons_self u resto)
    have hr := ih (fun v hv => h1 v (List.mem_cons_of_mem u hv))
    simp [editar_lista, hu, hr]

/-- The edit loop hits the first match and, when re-validation fails, the
whole operation errors out. -/
theorem editar_lista_encontra_err (task_id : Int) (p : TarefaAtualizar)
    (l1 l2 : List Tarefa) (t : Tarefa)
    (h1 : ∀ u ∈ l1, u.id ≠ task_id) (h2 : t.id = task_id)
    (hp : parseTarefa (aplicar_patch t p) = none) :
    editar_lista task_id p (l1 ++ t :: l2) = .error .validationError := by
  induction l1 with
  | nil => simp [editar_lista, h2, hp]
  | cons u resto ih =>
    have hu : u.id ≠ task_id := h1 u (List.mem_cons_self u resto)
    have hr := ih (fun v hv => h1 v (List.mem_cons_of_mem u hv))
    simp [editar_lista, hu, hr]

/-- A successful edit never changes the sequence of ids. -/
theorem editar_lista_ids (task_id : Int) (p : TarefaAtualizar) :
    ∀ (l : List Tarefa) (novo : Tarefa) (l2 : List Tarefa),
      editar_lista task_id p l = .ok (novo, l2) →
      l2.map (fun t => t.id) = l.map (fun t => t.id) := by
  intro l
  induction l with
  | nil => intro novo l2 h; cases h
  | cons t resto ih =>
    intro novo l2 h
    by_cases hid : t.id = task_id
    · simp only [editar_lista, if_pos hid] at h
      cases hp : parseTarefa (aplicar_patch t p) with
      | none => rw [hp] at h; cases h
      | some n =>
        rw [hp] at h
        cases h
        have h3 := parseTarefa_id _ _ hp
        simp only [aplicar_patch, Option.some.injEq] at h3
        simp [h3]
    · simp only [editar_lista, if_neg hid] at h
      cases he : editar_lista task_id p resto with
      | error e => rw [he] at h; cases h
      | ok pr =>
        obtain ⟨n, r2⟩ := pr
        rw [he] at h
        cases h
        simp [ih novo r2 he]

/-- Patching only `concluida` on a valid task re-validates to the same
task with just the flag replaced. -/
theorem parseTarefa_patch_concluida (t : Tarefa) (b : Bool)
    (h : tarefa_valida t = true) :
    parseTarefa (aplicar_patch t ⟨none, none, some (some b)⟩) =
      some ⟨t.id, t.titulo, t.descricao, b⟩ := by
  obtain ⟨i, s, d, c⟩ := t
  unfold tarefa_valida at h
  simp only [Bool.and_eq_true, decide_eq_true_eq] at h
  obtain ⟨⟨h1, h2⟩, h3⟩ := h
  cases d with
  | none =>
    simp [parseTarefa, aplicar_patch, validar_titulo, validar_descricao,
      validar_concluida, h1, h2]
  | some dd =>
    simp only [decide_eq_true_eq] at h3
    simp [parseTarefa, aplicar_patch, validar_titulo, validar_descricao,
      validar_concluida, h1, h2, h3]

/-- A patch whose `titulo` is an explicit null always fails the `Tarefa`
re-validation. -/
theorem parseTarefa_patch_titulo_nulo (t : Tarefa) (p : TarefaAtualizar)
    (h : p.titulo = some none) : parseTarefa (aplicar_patch t p) = none := by
  simp [parseTarefa, aplicar_patch, validar_titulo, h]

/-- `obter_redis` never touches the data file. -/
theorem obter_redis_preserva_arquivo (r : Redis) (s : Estado) :
    ((obter_redis r s).2).arquivo = s.arquivo := by
  unfold obter_redis
  cases hc : s.cliente_redis with
  | some h => rfl
  | none => cases hp : r.ping <;> rfl

/-- Cache invalidation never touches the data file. -/
theorem invalidar_preserva_arquivo (r : Redis) (s : Estado) :
    (invalidar_cache_tarefas r s).arquivo = s.arquivo :=
  obter_redis_preserva_arquivo r s

/-- Reduction of `editar_tarefa` when the load succeeds and the edit loop
finds and revalidates the target. -/
theorem editar_tarefa_ok (r : Redis) (s : Estado) (task_id : Int)
    (p : TarefaAtualizar) (ts : List Tarefa) (novo : Tarefa)
    (ts2 : List Tarefa) (h : _ler_todas_as_tarefas s.arquivo = .ok ts)
    (he : editar_lista task_id p ts = .ok (novo, ts2)) :
    editar_tarefa r task_id p s =
      (.ok novo, invalidar_cache_tarefas r
        ⟨_gravar_todas_as_tarefas ts2, s.cliente_redis⟩) := by
  unfold editar_tarefa
  rw [h]
  simp [he]

/-- Reduction of `editar_tarefa` when the load succeeds but the edit loop
errors: nothing is written and the state is untouched. -/
theorem editar_tarefa_err (r : Redis) (s : Estado) (task_id : Int)
    (p : TarefaAtualizar) (ts : List Tarefa) (e : Erro)
    (h : _ler_todas_as_tarefas s.arquivo = .ok ts)
    (he : editar_lista task_id p ts = .error e) :
    editar_tarefa r task_id p s = (.error e, s) := by
  unfold editar_tarefa
  rw [h]
  simp [he]

/-! ### Claim theorems -/

/-- C1: a create on a persisted list assigns the new task the id
`_proximo_id` of the loaded list, which is strictly greater than every id
previously present ((max prior id, default 0) + 1); in particular creating
a task titled Buy milk on an empty store yields task 1 with null
description and completed false. -/
theorem C1_criacao_id_sequencial (r : Redis) (s : Estado)
    (payload : TarefaCriar) (ts : List Tarefa)
    (h : _ler_todas_as_tarefas s.arquivo = .ok ts) :
    (adicionar_tarefa r payload s).1 =
      .ok ⟨_proximo_id ts, payload.titulo, payload.descricao, payload.concluida⟩ ∧
    (∀ u ∈ ts, u.id < _proximo_id ts) ∧
    adicionar_tarefa redis_indisponivel ⟨"Buy milk", none, false⟩ estado_inicial =
      (.ok ⟨1, "Buy milk", none, false⟩,
       ⟨_gravar_todas_as_tarefas [⟨1, "Buy milk", none, false⟩], none⟩) := by
  refine ⟨?_, id_lt_proximo_id ts, rfl⟩
  unfold adicionar_tarefa
  rw [h]

/-- Witness for C1 at a concrete input: the empty store. -/
theorem C1_criacao_id_sequencial_witness :
    _ler_todas_as_tarefas estado_inicial.arquivo = .ok [] ∧
    ((adicionar_tarefa redis_disponivel ⟨"Walk dog", none, false⟩
          estado_inicial).1 =
        .ok ⟨_proximo_id [], "Walk dog", none, false⟩ ∧
      (∀ u ∈ ([] : List Tarefa), u.id < _proximo_id []) ∧
      adicionar_tarefa redis_indisponivel ⟨"Buy milk", none, false⟩
          estado_inicial =
        (.ok ⟨1, "Buy milk", none, false⟩,
         ⟨_gravar_todas_as_tarefas [⟨1, "Buy milk", none, false⟩], none⟩)) :=
  ⟨rfl, C1_criacao_id_sequencial redis_disponivel estado_inicial
    ⟨"Walk dog", none, false⟩ [] rfl⟩

/-- C2: an update whose id is absent from the persisted list fails with
the 404 surfaced to the caller, and the whole process state — in
particular the persisted file — is left exactly as it was. -/
theorem C2_atualizacao_id_inexistente (r : Redis) (s : Estado)
    (task_id : Int) (p : TarefaAtualizar) (ts : List Tarefa)
    (h : _ler_todas_as_tarefas s.arquivo = .ok ts)
    (hid : ∀ u ∈ ts, u.id ≠ task_id) :
    editar_tarefa r task_id p s = (.error .notFound, s) := by
  unfold editar_tarefa
  rw [h]
  simp [editar_lista_ausente task_id p ts hid]

/-- Witness for C2 at a concrete input: updating id 999 on an empty store. -/
theorem C2_atualizacao_id_inexistente_witness :
    _ler_todas_as_tarefas estado_inicial.arquivo = .ok [] ∧
    (∀ u ∈ ([] : List Tarefa), u.id ≠ 999) ∧
    editar_tarefa redis_disponivel 999 ⟨none, none, none⟩ estado_inicial =
      (.error .notFound, estado_inicial) :=
  ⟨rfl, fun u hu => absurd hu (List.not_mem_nil u),
   C2_atualizacao_id_inexistente redis_disponivel estado_inicial 999
     ⟨none, none, none⟩ [] rfl (fun u hu => absurd hu (List.not_mem_nil u))⟩

/-- C3: saving any sequence of valid tasks and loading it back returns
the same sequence, in content and order. -/
theorem C3_ida_e_volta (ts : List Tarefa)
    (h : ∀ t ∈ ts, tarefa_valida t = true) :
    _ler_todas_as_tarefas (_gravar_todas_as_tarefas ts) = .ok ts := by
  simp [_ler_todas_as_tarefas, _gravar_todas_as_tarefas,
    parse_lista_map_dump ts h]

/-- Witness for C3 at a concrete input: a two-task list. -/
theorem C3_ida_e_volta_witness :
    (∀ t ∈ [(⟨1, "Buy milk", none, false⟩ : Tarefa),
        ⟨2, "Walk dog", some "daily", true⟩], tarefa_valida t = true) ∧
    _ler_todas_as_tarefas (_gravar_todas_as_tarefas
        [⟨1, "Buy milk", none, false⟩, ⟨2, "Walk dog", some "daily", true⟩]) =
      .ok [⟨1, "Buy milk", none, false⟩, ⟨2, "Walk dog", some "daily", true⟩] :=
  ⟨by decide,
   C3_ida_e_volta [⟨1, "Buy milk", none, false⟩,
     ⟨2, "Walk dog", some "daily", true⟩] (by decide)⟩

/-- C6: loading an absent or whitespace-only file yields the empty list;
structurally invalid content, or a record list with any record failing the
task field constraints, makes the load fail with the storage-corrupt
error. -/
theorem C6_leitura_arquivo (l : List TarefaBruta) (r : TarefaBruta)
    (hr : r ∈ l) (hp : parseTarefa r = none) :
    _ler_todas_as_tarefas .ausente = .ok [] ∧
    _ler_todas_as_tarefas .branco = .ok [] ∧
    _ler_todas_as_tarefas .invalido = .error .storageCorrupt ∧
    _ler_todas_as_tarefas (.dados l) = .error .storageCorrupt := by
  refine ⟨rfl, rfl, rfl, ?_⟩
  simp [_ler_todas_as_tarefas, parse_lista_falha l r hr hp]

/-- Witness for C6 at a concrete input: a record with every field missing
(no title). -/
theorem C6_leitura_arquivo_witness :
    (⟨none, none, none, none⟩ : TarefaBruta) ∈
      [(⟨none, none, none, none⟩ : TarefaBruta)] ∧
    parseTarefa ⟨none, none, none, none⟩ = none ∧
    _ler_todas_as_tarefas (.dados [⟨none, none, none, none⟩]) =
      .error .storageCorrupt :=
  ⟨List.mem_singleton.mpr rfl, rfl,
   (C6_leitura_arquivo [⟨none, none, none, none⟩] ⟨none, none, none, none⟩
     (List.mem_singleton.mpr rfl) rfl).2.2.2⟩

/-- C4: an update whose patch carries only `concluida` replaces exactly
the flag of the first task carrying the target id; its id, title and
description are untouched, and the persisted list keeps every other task,
the order and the length. -/
theorem C4_patch_somente_concluida (r : Redis) (s : Estado) (task_id : Int)
    (b : Bool) (l1 l2 : List Tarefa) (t : Tarefa)
    (h : _ler_todas_as_tarefas s.arquivo = .ok (l1 ++ t :: l2))
    (h1 : ∀ u ∈ l1, u.id ≠ task_id) (h2 : t.id = task_id)
    (hv : tarefa_valida t = true) :
    (editar_tarefa r task_id ⟨none, none, some (some b)⟩ s).1 =
      .ok ⟨t.id, t.titulo, t.descricao, b⟩ ∧
    ((editar_tarefa r task_id ⟨none, none, some (some b)⟩ s).2).arquivo =
      _gravar_todas_as_tarefas (l1 ++ ⟨t.id, t.titulo, t.descricao, b⟩ :: l2) := by
  have hp := parseTarefa_patch_concluida t b hv
  have he := editar_lista_encontra_ok task_id ⟨none, none, some (some b)⟩
    l1 l2 t ⟨t.id, t.titulo, t.descricao, b⟩ h1 h2 hp
  rw [editar_tarefa_ok r s task_id ⟨none, none, some (some b)⟩
    (l1 ++ t :: l2) ⟨t.id, t.titulo, t.descricao, b⟩
    (l1 ++ ⟨t.id, t.titulo, t.descricao, b⟩ :: l2) h he]
  exact ⟨rfl, invalidar_preserva_arquivo r _⟩

/-- Witness for C4 at a concrete input: completing task 1. -/
theorem C4_patch_somente_concluida_witness :
    _ler_todas_as_tarefas (Estado.arquivo
        ⟨_gravar_todas_as_tarefas [⟨1, "Buy milk", none, false⟩], none⟩) =
      .ok ([] ++ (⟨1, "Buy milk", none, false⟩ : Tarefa) :: []) ∧
    (∀ u ∈ ([] : List Tarefa), u.id ≠ 1) ∧
    tarefa_valida ⟨1, "Buy milk", none, false⟩ = true ∧
    ((editar_tarefa redis_disponivel 1 ⟨none, none, some (some true)⟩
        ⟨_gravar_todas_as_tarefas [⟨1, "Buy milk", none, false⟩], none⟩).1 =
      .ok ⟨1, "Buy milk", none, true⟩ ∧
     ((editar_tarefa redis_disponivel 1 ⟨none, none, some (some true)⟩
        ⟨_gravar_todas_as_tarefas [⟨1, "Buy milk", none, false⟩], none⟩).2).arquivo =
      _gravar_todas_as_tarefas
        ([] ++ (⟨1, "Buy milk", none, true⟩ : Tarefa) :: [])) :=
  ⟨rfl, fun u hu => absurd hu (List.not_mem_nil u), rfl,
   C4_patch_somente_concluida redis_disponivel
     ⟨_gravar_todas_as_tarefas [⟨1, "Buy milk", none, false⟩], none⟩ 1 true
     [] [] ⟨1, "Buy milk", none, false⟩ rfl
     (fun u hu => absurd hu (List.not_mem_nil u)) rfl rfl⟩

/-- C5: with the cache backend down throughout (connect, get, set, delete
all raise) and no previously cached client, list, create and update return
exactly what they return with no cache at all, and /health reports the
cache unavailable. -/
theorem C5_cache_indisponivel (s : Estado) (payload : TarefaCriar)
    (task_id : Int) (p : TarefaAtualizar) (h : s.cliente_redis = none) :
    listar_tarefas redis_indisponivel s = listar_sem_cache s ∧
    adicionar_tarefa redis_indisponivel payload s =
      adicionar_sem_cache payload s ∧
    editar_tarefa redis_indisponivel task_id p s =
      editar_sem_cache task_id p s ∧
    saude redis_indisponivel s = (false, s) := by
  obtain ⟨arq, cli⟩ := s
  change cli = none at h
  subst h
  refine ⟨rfl, ?_, ?_, rfl⟩
  · unfold adicionar_tarefa adicionar_sem_cache
    cases h1 : _ler_todas_as_tarefas arq with
    | error e => rfl
    | ok ts => rfl
  · unfold editar_tarefa editar_sem_cache
    cases h1 : _ler_todas_as_tarefas arq with
    | error e => rfl
    | ok ts =>
      cases h2 : editar_lista task_id p ts with
      | error e => rfl
      | ok pr =>
        obtain ⟨n, l2⟩ := pr
        rfl

/-- Witness for C5 at a concrete input: the fresh state. -/
theorem C5_cache_indisponivel_witness :
    Estado.cliente_redis estado_inicial = none ∧
    (listar_tarefas redis_indisponivel estado_inicial =
        listar_sem_cache estado_inicial ∧
      adicionar_tarefa redis_indisponivel ⟨"a", none, false⟩ estado_inicial =
        adicionar_sem_cache ⟨"a", none, false⟩ estado_inicial ∧
      editar_tarefa redis_indisponivel 1 ⟨none, none, none⟩ estado_inicial =
        editar_sem_cache 1 ⟨none, none, none⟩ estado_inicial ∧
      saude redis_indisponivel estado_inicial = (false, estado_inicial)) :=
  ⟨rfl, C5_cache_indisponivel estado_inicial ⟨"a", none, false⟩ 1
    ⟨none, none, none⟩ rfl⟩

/-- C7 counterexample to the claim as stated: after a failed
initialization the process-wide handle stays unset and the very next call
does attempt a reconnection — here, against a backend that has come back
up, it succeeds, which a permanently cached unavailable handle would rule
out. -/
theorem C7_contraexemplo :
    (obter_redis redis_indisponivel estado_inicial).1 = none ∧
    ((obter_redis redis_indisponivel estado_inicial).2).cliente_redis = none ∧
    (obter_redis redis_disponivel
        (obter_redis redis_indisponivel estado_inicial).2).1 = some () :=
  ⟨rfl, rfl, rfl⟩

/-- C7 amended: if initialization fails, `obter_redis` returns absent and
leaves the global handle unset, so every subsequent call re-attempts the
connection and its outcome follows whatever the backend then answers. -/
theorem C7_reconexao (r r2 : Redis) (s : Estado)
    (h : s.cliente_redis = none) (hping : r.ping = false) :
    obter_redis r s = (none, s) ∧
    (obter_redis r2 (obter_redis r s).2).1 =
      (if r2.ping then some () else none) := by
  have e1 : obter_redis r s = (none, s) := by
    unfold obter_redis
    rw [h]
    simp [hping]
  refine ⟨e1, ?_⟩
  rw [e1]
  unfold obter_redis
  rw [h]
  cases hp2 : r2.ping <;> simp

/-- Witness for C7 (amended) at a concrete input. -/
theorem C7_reconexao_witness :
    Estado.cliente_redis estado_inicial = none ∧
    Redis.ping redis_indisponivel = false ∧
    (obter_redis redis_indisponivel estado_inicial = (none, estado_inicial) ∧
     (obter_redis redis_disponivel
         (obter_redis redis_indisponivel estado_inicial).2).1 =
       (if Redis.ping redis_disponivel then some () else none)) :=
  ⟨rfl, rfl,
   C7_reconexao redis_indisponivel redis_disponivel estado_inicial rfl rfl⟩

/-- C8: starting from pairwise-distinct ids, the id a create assigns is
fresh, and a successful update leaves the sequence of ids untouched, so
the list after either operation still has pairwise-distinct ids; the list
operation does not change the list at all. -/
theorem C8_ids_unicos (tarefas : List Tarefa) (payload : TarefaCriar)
    (task_id : Int) (p : TarefaAtualizar) (novo : Tarefa)
    (tarefas2 : List Tarefa)
    (hnd : (tarefas.map (fun t => t.id)).Nodup)
    (hed : editar_lista task_id p tarefas = .ok (novo, tarefas2)) :
    _proximo_id tarefas ∉ tarefas.map (fun t => t.id) ∧
    (((tarefas ++ [(⟨_proximo_id tarefas, payload.titulo, payload.descricao,
        payload.concluida⟩ : Tarefa)]).map (fun t => t.id)).Nodup) ∧
    tarefas2.map (fun t => t.id) = tarefas.map (fun t => t.id) ∧
    (tarefas2.map (fun t => t.id)).Nodup := by
  have hfresh : _proximo_id tarefas ∉ tarefas.map (fun t => t.id) := by
    intro hmem
    obtain ⟨u, hu, he2⟩ := List.mem_map.mp hmem
    have hlt := id_lt_proximo_id tarefas u hu
    omega
  have hids := editar_lista_ids task_id p tarefas novo tarefas2 hed
  refine ⟨hfresh, ?_, hids, by rw [hids]; exact hnd⟩
  rw [List.map_append, List.nodup_append]
  refine ⟨hnd, List.nodup_singleton _, ?_⟩
  intro a ha hb
  simp only [List.map_cons, List.map_nil, List.mem_singleton] at hb
  subst hb
  exact hfresh ha

/-- Witness for C8 at a concrete input: one task, one completed-flag
update. -/
theorem C8_ids_unicos_witness :
    (([(⟨1, "a", none, false⟩ : Tarefa)]).map (fun t => t.id)).Nodup ∧
    editar_lista 1 ⟨none, none, some (some true)⟩ [⟨1, "a", none, false⟩] =
      .ok (⟨1, "a", none, true⟩, [⟨1, "a", none, true⟩]) ∧
    (_proximo_id [⟨1, "a", none, false⟩] ∉
       ([(⟨1, "a", none, false⟩ : Tarefa)]).map (fun t => t.id) ∧
     ((([(⟨1, "a", none, false⟩ : Tarefa)] ++
         [(⟨_proximo_id [⟨1, "a", none, false⟩], "b", none, false⟩ :
            Tarefa)]).map (fun t => t.id)).Nodup) ∧
     ([(⟨1, "a", none, true⟩ : Tarefa)]).map (fun t => t.id) =
       ([(⟨1, "a", none, false⟩ : Tarefa)]).map (fun t => t.id) ∧
     (([(⟨1, "a", none, true⟩ : Tarefa)]).map (fun t => t.id)).Nodup) :=
  ⟨by decide, rfl,
   C8_ids_unicos [⟨1, "a", none, false⟩] ⟨"b", none, false⟩ 1
     ⟨none, none, some (some true)⟩ ⟨1, "a", none, true⟩
     [⟨1, "a", none, true⟩] (by decide) rfl⟩

/-- C10: an update whose patch explicitly sets the title to null (rather
than omitting it) finds the target, fails the rebuilt task's validation
before any save, and the operation errors out — not with the 404 — leaving
the whole state, in particular the persisted list, unchanged. -/
theorem C10_titulo_nulo (r : Redis) (s : Estado) (task_id : Int)
    (p : TarefaAtualizar) (l1 l2 : List Tarefa) (t : Tarefa)
    (h : _ler_todas_as_tarefas s.arquivo = .ok (l1 ++ t :: l2))
    (h1 : ∀ u ∈ l1, u.id ≠ task_id) (h2 : t.id = task_id)
    (ht : p.titulo = some none) :
    editar_tarefa r task_id p s = (.error .validationError, s) ∧
    Erro.validationError ≠ Erro.notFound := by
  have hp := parseTarefa_patch_titulo_nulo t p ht
  have he := editar_lista_encontra_err task_id p l1 l2 t h1 h2 hp
  exact ⟨editar_tarefa_err r s task_id p (l1 ++ t :: l2) .validationError h he,
    by decide⟩

/-- Witness for C10 at a concrete input: nulling the title of task 1. -/
theorem C10_titulo_nulo_witness :
    _ler_todas_as_tarefas (Estado.arquivo
        ⟨_gravar_todas_as_tarefas [⟨1, "Buy milk", none, false⟩], none⟩) =
      .ok ([] ++ (⟨1, "Buy milk", none, false⟩ : Tarefa) :: []) ∧
    (∀ u ∈ ([] : List Tarefa), u.id ≠ 1) ∧
    (editar_tarefa redis_disponivel 1 ⟨some none, none, none⟩
        ⟨_gravar_todas_as_tarefas [⟨1, "Buy milk", none, false⟩], none⟩ =
      (.error .validationError,
       ⟨_gravar_todas_as_tarefas [⟨1, "Buy milk", none, false⟩], none⟩) ∧
     Erro.validationError ≠ Erro.notFound) :=
  ⟨rfl, fun u hu => absurd hu (List.not_mem_nil u),
   C10_titulo_nulo redis_disponivel
     ⟨_gravar_todas_as_tarefas [⟨1, "Buy milk", none, false⟩], none⟩ 1
     ⟨some none, none, none⟩ [] [] ⟨1, "Buy milk", none, false⟩ rfl
     (fun u hu => absurd hu (List.not_mem_nil u)) rfl rfl⟩

end App
